import Mathlib

/-!
Verification of the maintenance-agent server (tools.js, knowledge.js,
chat.js) against its specification.

The JavaScript source is embedded shallowly:

* JSON records become structures; a field the code reads with a fallback
  (`wo.tenant_id || wo.tenantId`) or may leave absent is an `Option`.
* JavaScript truthiness on strings (undefined and "" are falsy) is made
  explicit through the `js`-prefixed helpers below.
* `readJSON`/`writeJSON` become explicit collection arguments and results;
  an operation that throws before its `writeJSON` is an `Except.error`,
  and runner wrappers give the collection an error leaves untouched.
* `new Date().toISOString()` and `Date.now()` become ambient `now` /
  `freshId` string parameters.
* The OpenAI calls (the chat completion of the agent loop and the
  structured duplicate-comparison call) are oracles passed as functions.
-/

/-- Models `a || b` on two possibly-undefined JavaScript strings:
the first operand wins unless it is undefined or the empty string
(both falsy in JavaScript). -/
def jsOrO (a b : Option String) : Option String :=
  match a with
  | some s => if s = "" then b else some s
  | none => b

/-- Models `a || d` for a possibly-undefined string and a string default. -/
def jsOrS (a : Option String) (d : String) : String :=
  match a with
  | some s => if s = "" then d else s
  | none => d

/-- Models `(a || "")`: an undefined string defaults to the empty string. -/
def jsStr (a : Option String) : String := a.getD ""

/-- Models `if (a)` on a possibly-undefined string: truthy iff present and
nonempty. -/
def jsTruthy (a : Option String) : Bool :=
  match a with
  | some s => s ≠ ""
  | none => false

/-- Models a template-literal interpolation of a possibly-undefined string:
JavaScript renders `undefined` as the text "undefined". -/
def jsShow (a : Option String) : String := a.getD "undefined"

/-- All suffixes of a character list (the list itself included), used to
model `String.prototype.includes`. -/
def listTails : List Char → List (List Char)
  | [] => [[]]
  | c :: cs => (c :: cs) :: listTails cs

/-- Models `haystack.includes(needle)`: some suffix of the haystack starts
with the needle. The empty needle is found in every string, as in
JavaScript. -/
def strContains (haystack needle : String) : Bool :=
  (listTails haystack.toList).any (fun t => needle.toList.isPrefixOf t)

/-- Models `s.toLowerCase()` character by character (the corpus is ASCII). -/
def strToLower (s : String) : String :=
  (s.toList.map Char.toLower).asString

/-- Models `s.trim()`: whitespace stripped from both ends. -/
def strTrim (s : String) : String :=
  (((s.toList.dropWhile Char.isWhitespace).reverse.dropWhile
    Char.isWhitespace).reverse).asString

/-- The token accumulator behind `jsSplitWhitespace`: the maximal nonempty
runs of non-whitespace characters. -/
def wsTokensAux : List Char → List Char → List String
  | [], acc => if acc.isEmpty then [] else [acc.reverse.asString]
  | c :: cs, acc =>
    if c.isWhitespace then
      if acc.isEmpty then wsTokensAux cs []
      else acc.reverse.asString :: wsTokensAux cs []
    else wsTokensAux cs (c :: acc)

/-- Models `s.split(/\s+/)`: the tokens between maximal whitespace runs,
with an empty token kept at an end of the string that begins or ends with
whitespace, and `[""]` for the empty string, as the JavaScript regex split
behaves. -/
def jsSplitWhitespace (s : String) : List String :=
  if s = "" then [""]
  else
    let tokens := wsTokensAux s.toList []
    let leading := match s.toList.head? with
      | some c => c.isWhitespace
      | none => false
    let trailing := match s.toList.getLast? with
      | some c => c.isWhitespace
      | none => false
    (if leading then [""] else []) ++ tokens ++ (if trailing then [""] else [])

/-! ## Data model (§3 of the spec) -/

/-- A photo attachment of a work order. -/
structure Attachment where
  id : String
  url : String
  filename : String
  mediaType : String
deriving DecidableEq

/-- A work-order record as stored in `work_orders.json`. Optional fields
model JSON properties the code may find absent; the `tenantId`,
`issueDescription`, `contractorId` and `createdAt` fields are the legacy
field names the code tolerates through `||` fallbacks. -/
structure WorkOrder where
  id : String
  tenant_id : Option String := none
  tenantId : Option String := none
  issue_summary : Option String := none
  issueDescription : Option String := none
  contractor_id : Option String := none
  contractorId : Option String := none
  contractor_name : Option String := none
  trade : Option String := none
  priority : Option String := none
  status : Option String := none
  created_at : Option String := none
  createdAt : Option String := none
  updated_at : Option String := none
  resolved_at : Option String := none
  resolution_notes : Option String := none
  attachments : List Attachment := []
deriving DecidableEq

/-- A contractor record from `contractors.json`; only the fields the agent
tools read are modelled (`id`, `name`, `service`). -/
structure Contractor where
  id : String
  name : String
  service : Option String := none
deriving DecidableEq

/-- A tenant record from `tenants.json`. -/
structure Tenant where
  id : String
  name : String
  unit : String
deriving DecidableEq

/-- A knowledge-base article from `knowledge.json`; title, content and tags
may be absent. -/
structure Article where
  id : String
  title : Option String := none
  content : Option String := none
  tags : Option (List String) := none
deriving DecidableEq

/-- An article as returned by the knowledge search: the article with its
display title substituted and its keyword score attached. -/
structure ScoredArticle where
  id : String
  title : Option String := none
  content : Option String := none
  tags : Option (List String) := none
  score : Nat := 0
deriving DecidableEq

/-! ## Find-and-replace-first list helpers

`update_work_order`, `complete_work_order` and `delete_work_order` all do
`findIndex` on the collection, mutate or splice that one element, and write
the whole collection back. `updateFirst` and `removeFirst` model that
read-modify-write pattern. -/

/-- Replaces the first element satisfying `p` by its image under `f`,
returning the new list and the new element; `none` when no element
matches (`findIndex` returned -1). -/
def updateFirst (p : α → Prop) [DecidablePred p] (f : α → α) :
    List α → Option (List α × α)
  | [] => none
  | x :: xs =>
    if p x then some (f x :: xs, f x)
    else
      match updateFirst p f xs with
      | none => none
      | some (ys, y) => some (x :: ys, y)

/-- Removes the first element satisfying `p`, returning the new list and
the removed element; `none` when no element matches. -/
def removeFirst (p : α → Prop) [DecidablePred p] :
    List α → Option (List α × α)
  | [] => none
  | x :: xs =>
    if p x then some (xs, x)
    else
      match removeFirst p xs with
      | none => none
      | some (ys, y) => some (x :: ys, y)

theorem updateFirst_eq_none {p : α → Prop} [DecidablePred p] {f : α → α} :
    ∀ {l : List α}, updateFirst p f l = none ↔ ∀ x ∈ l, ¬ p x := by
  intro l
  induction l with
  | nil => simp [updateFirst]
  | cons x xs ih =>
    by_cases hx : p x
    · simp [updateFirst, hx]
    · cases h : updateFirst p f xs with
      | none =>
        simp only [updateFirst, hx, if_neg hx, h]
        simp only [List.mem_cons]
        constructor
        · intro _ z hz
          rcases hz with hz | hz
          · exact hz ▸ hx
          · exact (ih.mp h) z hz
        · intro _
          rfl
      | some out =>
        simp only [updateFirst, hx, if_neg hx, h]
        constructor
        · intro hcontr
          exact absurd hcontr (by simp)
        · intro hall
          exact absurd (ih.mpr (fun z hz => hall z (List.mem_cons_of_mem x hz))) (by simp [h])

theorem updateFirst_eq_some {p : α → Prop} [DecidablePred p] {f : α → α} :
    ∀ {l l' : List α} {y : α}, updateFirst p f l = some (l', y) →
      ∃ pre x post, l = pre ++ x :: post ∧ (∀ a ∈ pre, ¬ p a) ∧ p x ∧
        y = f x ∧ l' = pre ++ f x :: post := by
  intro l
  induction l with
  | nil => intro l' y h; simp [updateFirst] at h
  | cons x xs ih =>
    intro l' y h
    by_cases hx : p x
    · refine ⟨[], x, xs, by simp, by simp, hx, ?_, ?_⟩
      · simp [updateFirst, hx] at h
        exact h.2.symm
      · simp [updateFirst, hx] at h
        simp [h.1.symm]
    · simp only [updateFirst, if_neg hx] at h
      cases hrec : updateFirst p f xs with
      | none => rw [hrec] at h; simp at h
      | some out =>
        rw [hrec] at h
        obtain ⟨ys, y0⟩ := out
        simp only [Option.some.injEq, Prod.mk.injEq] at h
        obtain ⟨hl', hy⟩ := h
        obtain ⟨pre, z, post, hxs, hpre, hz, hy0, hys⟩ := ih hrec
        refine ⟨x :: pre, z, post, by simp [hxs], ?_, hz, by rw [← hy, hy0], ?_⟩
        · intro a ha
          rcases List.mem_cons.mp ha with ha | ha
          · exact ha ▸ hx
          · exact hpre a ha
        · rw [← hl', hys]; simp

theorem updateFirst_isSome {p : α → Prop} [DecidablePred p] {f : α → α}
    {l : List α} (h : ∃ x ∈ l, p x) : (updateFirst p f l).isSome := by
  cases hu : updateFirst p f l with
  | none =>
    obtain ⟨x, hx, hp⟩ := h
    exact absurd hp (updateFirst_eq_none.mp hu x hx)
  | some out => rfl

theorem updateFirst_mem {p : α → Prop} [DecidablePred p] {f : α → α}
    {l l' : List α} {y : α} (h : updateFirst p f l = some (l', y)) :
    ∀ z ∈ l', z ∈ l ∨ ∃ w ∈ l, z = f w := by
  obtain ⟨pre, x, post, hl, _, _, _, hl'⟩ := updateFirst_eq_some h
  intro z hz
  rw [hl'] at hz
  rcases List.mem_append.mp hz with hz | hz
  · exact Or.inl (hl ▸ List.mem_append.mpr (Or.inl hz))
  · rcases List.mem_cons.mp hz with hz | hz
    · exact Or.inr ⟨x, hl ▸ List.mem_append.mpr (Or.inr (List.mem_cons_self x post)), hz⟩
    · exact Or.inl (hl ▸ List.mem_append.mpr (Or.inr (List.mem_cons_of_mem x hz)))

/-! ## Work Order State Machine (tools.js, toolImplementations) -/

/-- Step 1 of contractor resolution in `create_work_order`:
`contractors.find((c) => c.id === contractor_id)`. -/
def findById (contractors : List Contractor) (contractor_id : Option String) :
    Option Contractor :=
  contractors.find? (fun c => some c.id == contractor_id)

/-- Step 2 of contractor resolution: case-insensitive exact name match,
`contractors.find((c) => c.name.toLowerCase() === contractor_id.toLowerCase())`. -/
def findByName (contractors : List Contractor) (raw : String) :
    Option Contractor :=
  contractors.find? (fun c => strToLower c.name == strToLower raw)

/-- Step 3 of contractor resolution: case-insensitive substring match,
`contractors.find((c) => c.name.toLowerCase().includes(contractor_id.toLowerCase()))`. -/
def findBySubstring (contractors : List Contractor) (raw : String) :
    Option Contractor :=
  contractors.find? (fun c => strContains (strToLower c.name) (strToLower raw))

/-- The thrown not-found message of `create_work_order`. -/
def contractorNotFoundMsg (contractor_id : Option String)
    (contractors : List Contractor) : String :=
  "Contractor with ID or name \"" ++ jsShow contractor_id ++
    "\" not found. Available contractors: " ++
    String.intercalate ", " (contractors.map (fun c => c.id ++ " (" ++ c.name ++ ")"))

/-- The record `create_work_order` builds once a contractor resolved: status
is `assigned`, the contractor reference is the resolved canonical id and
name, `trade` comes from the contractor, attachments default to `[]`. -/
def newWorkOrder (freshId now : String) (tenant_id issue_summary : Option String)
    (priority : Option String) (attachments : Option (List Attachment))
    (contractor : Contractor) : WorkOrder :=
  { id := freshId
    tenant_id := tenant_id
    issue_summary := issue_summary
    contractor_id := some contractor.id
    contractor_name := some contractor.name
    trade := contractor.service
    priority := priority
    status := some "assigned"
    created_at := some now
    attachments := attachments.getD [] }

/-- Models `toolImplementations.create_work_order`. The three resolution
steps run in order. When step 1 fails, JavaScript evaluates
`contractor_id.toLowerCase()` inside the step-2 callback: with an undefined
`contractor_id` that throws a TypeError — unless the contractor list is
empty, in which case `find` never runs its callback and the ordinary
not-found error is thrown. An `Except.error` models every throw; the
collection is written only on success, so an error leaves it unchanged. -/
def create_work_order (freshId now : String) (contractors : List Contractor)
    (workOrders : List WorkOrder) (tenant_id issue_summary contractor_id : Option String)
    (priority : Option String) (attachments : Option (List Attachment)) :
    Except String (List WorkOrder × WorkOrder) :=
  let mk := fun (contractor : Contractor) =>
    let newOrder := newWorkOrder freshId now tenant_id issue_summary priority
      attachments contractor
    Except.ok (workOrders ++ [newOrder], newOrder)
  match findById contractors contractor_id with
  | some contractor => mk contractor
  | none =>
    match contractor_id, contractors with
    | _, [] => Except.error (contractorNotFoundMsg contractor_id [])
    | none, _ :: _ =>
      Except.error "TypeError: Cannot read properties of undefined (reading toLowerCase)"
    | some raw, c0 :: cs =>
      match findByName (c0 :: cs) raw with
      | some contractor => mk contractor
      | none =>
        match findBySubstring (c0 :: cs) raw with
        | some contractor => mk contractor
        | none => Except.error (contractorNotFoundMsg (some raw) (c0 :: cs))

/-- The field mutations of `update_work_order`: each provided field among
issue_summary, priority and status is written, then `updated_at` is
stamped. -/
def applyUpdateFields (now : String) (issue_summary priority status : Option String)
    (wo : WorkOrder) : WorkOrder :=
  let wo := match issue_summary with
    | some v => { wo with issue_summary := some v }
    | none => wo
  let wo := match priority with
    | some v => { wo with priority := some v }
    | none => wo
  let wo := match status with
    | some v => { wo with status := some v }
    | none => wo
  { wo with updated_at := some now }

/-- Models `toolImplementations.update_work_order`: find the order by id,
apply the provided fields, stamp `updated_at`, write the collection back;
throw (an `Except.error`) when the id is absent. -/
def update_work_order (now : String) (workOrders : List WorkOrder)
    (work_order_id issue_summary priority status : Option String) :
    Except String (List WorkOrder × WorkOrder) :=
  match updateFirst (fun wo => some wo.id = work_order_id)
      (applyUpdateFields now issue_summary priority status) workOrders with
  | none => Except.error ("Work order " ++ jsShow work_order_id ++ " not found.")
  | some (ws, wo) => Except.ok (ws, wo)

/-- The field mutations of `complete_work_order`: status is forced to
`solved`, `updated_at` and `resolved_at` are stamped, and truthy resolution
notes are stored. -/
def applyComplete (now : String) (resolution_notes : Option String)
    (wo : WorkOrder) : WorkOrder :=
  let wo := { wo with
    status := some "solved"
    updated_at := some now
    resolved_at := some now }
  if jsTruthy resolution_notes then { wo with resolution_notes := resolution_notes }
  else wo

/-- Models `toolImplementations.complete_work_order`. -/
def complete_work_order (now : String) (workOrders : List WorkOrder)
    (work_order_id resolution_notes : Option String) :
    Except String (List WorkOrder × WorkOrder) :=
  match updateFirst (fun wo => some wo.id = work_order_id)
      (applyComplete now resolution_notes) workOrders with
  | none => Except.error ("Work order " ++ jsShow work_order_id ++ " not found.")
  | some (ws, wo) => Except.ok (ws, wo)

/-- Models `toolImplementations.delete_work_order`: splice the order out. -/
def delete_work_order (workOrders : List WorkOrder)
    (work_order_id : Option String) :
    Except String (List WorkOrder × WorkOrder) :=
  match removeFirst (fun wo => some wo.id = work_order_id) workOrders with
  | none => Except.error ("Work order " ++ jsShow work_order_id ++ " not found.")
  | some (ws, wo) => Except.ok (ws, wo)

/-- The stored collection after a `create_work_order` call: the successful
write, or the untouched collection when the call threw before `writeJSON`. -/
def createRun (freshId now : String) (contractors : List Contractor)
    (workOrders : List WorkOrder) (tenant_id issue_summary contractor_id : Option String)
    (priority : Option String) (attachments : Option (List Attachment)) :
    List WorkOrder :=
  match create_work_order freshId now contractors workOrders tenant_id issue_summary
      contractor_id priority attachments with
  | Except.ok (ws, _) => ws
  | Except.error _ => workOrders

/-- The stored collection after a `complete_work_order` call: the
successful write, or the untouched collection when the id was absent and
the call threw before `writeJSON`. -/
def completeRun (now : String) (workOrders : List WorkOrder)
    (work_order_id resolution_notes : Option String) : List WorkOrder :=
  match complete_work_order now workOrders work_order_id resolution_notes with
  | Except.ok (ws, _) => ws
  | Except.error _ => workOrders

/-- A work order as normalized by `get_work_orders`: canonical field names,
attachments replaced by a count and a presence flag. -/
structure WorkOrderView where
  id : String
  tenant_id : Option String
  issue_summary : Option String
  contractor_id : Option String
  contractor_name : Option String
  trade : Option String
  priority : Option String
  status : Option String
  created_at : Option String
  attachments_count : Nat
  has_photos : Bool
deriving DecidableEq

/-- The normalization step of `get_work_orders`. -/
def toWorkOrderView (wo : WorkOrder) : WorkOrderView :=
  { id := wo.id
    tenant_id := jsOrO wo.tenant_id wo.tenantId
    issue_summary := jsOrO wo.issue_summary wo.issueDescription
    contractor_id := jsOrO wo.contractor_id wo.contractorId
    contractor_name := wo.contractor_name
    trade := wo.trade
    priority := wo.priority
    status := wo.status
    created_at := jsOrO wo.created_at wo.createdAt
    attachments_count := wo.attachments.length
    has_photos := decide (0 < wo.attachments.length) }

/-- Models `toolImplementations.get_work_orders`: filter by tenant (with
the legacy field-name fallback), optionally filter by status
(case-insensitive, only when the filter string is truthy), normalize. -/
def get_work_orders (workOrders : List WorkOrder)
    (tenant_id status_filter : Option String) : List WorkOrderView :=
  let filtered := workOrders.filter (fun wo => jsOrO wo.tenant_id wo.tenantId == tenant_id)
  let filtered :=
    if jsTruthy status_filter then
      filtered.filter (fun wo => strToLower (jsStr wo.status) == strToLower (jsStr status_filter))
    else filtered
  filtered.map toWorkOrderView

/-- Models `toolImplementations.get_available_contractors`: a missing
contractor store yields `[]`; otherwise keep contractors whose service
equals the requested trade (case-insensitive) or whose name contains it. -/
def get_available_contractors (contractors : Option (List Contractor))
    (trade : Option String) : List Contractor :=
  match contractors with
  | none => []
  | some cs =>
    cs.filter (fun c =>
      strToLower (jsStr c.service) == strToLower (jsStr trade) ||
        strContains (strToLower c.name) (strToLower (jsStr trade)))

/-! ## Knowledge Retriever (knowledge.js, searchKnowledge) -/

/-- The keyword score of one article: for every query term found in the
title-content-tags haystack add 1 point, and 2 more when the term is also
in a nonempty title. -/
def articleScore (terms : List String) (article : Article) : Nat :=
  let safeTitle := jsStr article.title
  let safeContent := jsStr article.content
  let safeTags := article.tags.getD []
  let text := strToLower (safeTitle ++ " " ++ safeContent ++ " " ++
    String.intercalate " " safeTags)
  terms.foldl (fun score term =>
    if strContains text term then
      score + 1 + (if safeTitle ≠ "" ∧ strContains (strToLower safeTitle) term then 2 else 0)
    else score) 0

/-- The display title of an article: the stored title when truthy,
otherwise the first line of the content, truncated to 47 characters plus
an ellipsis when longer than 50. -/
def displayTitle (article : Article) : Option String :=
  let safeContent := jsStr article.content
  if jsTruthy article.title then article.title
  else if safeContent ≠ "" then
    let firstLine := strTrim (safeContent.toList.takeWhile (fun c => c ≠ Char.ofNat 10)).asString
    some (if 50 < firstLine.length then
        (firstLine.toList.take 47).asString ++ "..."
      else firstLine)
  else article.title

/-- One mapped entry of the `knowledge.map` step of `searchKnowledge`:
the article with its display title and score. -/
def scoreArticle (terms : List String) (a : Article) : ScoredArticle :=
  { id := a.id
    title := displayTitle a
    content := a.content
    tags := a.tags
    score := articleScore terms a }

/-- The full scored corpus for a query, before filtering and sorting. -/
def scoredCorpus (knowledge : List Article) (query : String) : List ScoredArticle :=
  knowledge.map (scoreArticle (jsSplitWhitespace (strToLower query)))

/-- The descending-score order used to model the stable JavaScript
`sort((a, b) => b.score - a.score)`. -/
def scoreGE (a b : ScoredArticle) : Prop := b.score ≤ a.score

instance : DecidableRel scoreGE := fun a b => Nat.decLe b.score a.score

instance : IsTotal ScoredArticle scoreGE := ⟨fun a b => le_total b.score a.score⟩

instance : IsTrans ScoredArticle scoreGE :=
  ⟨fun _ _ _ h1 h2 => le_trans h2 h1⟩

/-- The result pipeline of `searchKnowledge`: keep articles scoring above
zero, sort by descending score (a stable sort, as ECMAScript requires of
`Array.prototype.sort`), take the first 3. -/
def searchResults (knowledge : List Article) (query : String) : List ScoredArticle :=
  (((scoredCorpus knowledge query).filter (fun r => decide (0 < r.score))).insertionSort
    scoreGE).take 3

/-- Models `searchKnowledge`: a missing corpus yields `[]` before the query
is touched; an undefined query then throws on `query.toLowerCase()`. -/
def searchKnowledge (knowledge : Option (List Article)) (query : Option String) :
    Except String (List ScoredArticle) :=
  match knowledge with
  | none => Except.ok []
  | some ks =>
    match query with
    | none => Except.error "TypeError: Cannot read properties of undefined (reading toLowerCase)"
    | some q => Except.ok (searchResults ks q)

/-! ## Duplicate Issue Detector (tools.js, check_similar_issues) -/

/-- The structured verdict of the secondary duplicate-comparison call. -/
structure Verdict where
  is_similar : Bool
  matching_order_id : Option String
  reasoning : String
deriving DecidableEq

/-- An active order as presented to the comparison call: the
`existingIssues` map of `check_similar_issues`. -/
structure ExistingIssue where
  id : String
  issue_summary : Option String
  trade : String
  priority : Option String
  status : Option String
  created_at : Option String
deriving DecidableEq

/-- The short form of an existing issue included in non-similar results. -/
structure ExistingBrief where
  id : String
  issue_summary : Option String
  trade : String
deriving DecidableEq

/-- What `compareIssuesWithLLM` returns to `check_similar_issues` once the
verdict is parsed. -/
structure CompareResult where
  has_similar : Bool
  similar_order : Option ExistingIssue := none
  reasoning : Option String := none
deriving DecidableEq

/-- The result shape of `check_similar_issues`; absent JSON fields are
`none`. -/
structure SimilarResult where
  has_similar : Bool
  active_orders_count : Option Nat := none
  similar_order : Option ExistingIssue := none
  reasoning : Option String := none
  error : Option String := none
  existing_issues : Option (List ExistingBrief) := none
  message : String := ""
deriving DecidableEq

/-- The active-order filter of `check_similar_issues`: same tenant (with
the legacy field fallback) and status in assigned / pending / in_progress,
case-insensitively. -/
def activeOrdersFor (workOrders : List WorkOrder) (tenant_id : Option String) :
    List WorkOrder :=
  workOrders.filter (fun wo =>
    jsOrO wo.tenant_id wo.tenantId == tenant_id &&
      (let woStatus := strToLower (jsStr wo.status)
       woStatus == "assigned" || woStatus == "pending" || woStatus == "in_progress"))

/-- The `existingIssues` map of `check_similar_issues`. -/
def toExistingIssue (wo : WorkOrder) : ExistingIssue :=
  { id := wo.id
    issue_summary := jsOrO wo.issue_summary wo.issueDescription
    trade := jsOrS wo.trade "unknown"
    priority := wo.priority
    status := wo.status
    created_at := jsOrO wo.created_at wo.createdAt }

/-- The projection to (id, issue_summary, trade) used in the non-similar
and fallback results. -/
def toBrief (o : ExistingIssue) : ExistingBrief :=
  { id := o.id, issue_summary := o.issue_summary, trade := o.trade }

/-- The verdict-resolution step of `compareIssuesWithLLM`: when the verdict
claims similarity and names a truthy id, resolve it against the active set
(`find` may come back undefined for a hallucinated id); otherwise report
no similarity. -/
def compareIssuesWithLLM (result : Verdict) (existingIssues : List ExistingIssue) :
    CompareResult :=
  if result.is_similar && jsTruthy result.matching_order_id then
    { has_similar := true
      similar_order := existingIssues.find? (fun o => some o.id == result.matching_order_id)
      reasoning := some result.reasoning }
  else
    { has_similar := false, reasoning := some result.reasoning }

/-- The secondary reasoning call as an oracle: it sees the new issue
description and the formatted active set, and returns a structured verdict
or fails. -/
def LLMJudge : Type :=
  Option String → List ExistingIssue → Except Unit Verdict

/-- The catch-block result of `check_similar_issues`: fail open with the
active set surfaced and the `error` field populated. -/
def similarFallback (existingIssues : List ExistingIssue) (count : Nat) :
    SimilarResult :=
  { has_similar := false
    error := some "Could not perform semantic comparison"
    active_orders_count := some count
    existing_issues := some (existingIssues.map toBrief)
    message := "Unable to automatically compare issues. Please review existing orders manually before creating a new one." }

/-- The fast-path result of `check_similar_issues` when the tenant has no
active orders. -/
def noActiveOrdersResult : SimilarResult :=
  { has_similar := false
    active_orders_count := some 0
    message := "No active work orders found for this tenant. Safe to create a new work order." }

/-- Models `toolImplementations.check_similar_issues`. With no active
orders the fast path returns at once, never consulting the oracle.
Otherwise the oracle verdict is resolved by `compareIssuesWithLLM`; a
similar verdict whose resolved order is undefined (a hallucinated id)
throws a TypeError while the success message interpolates
`similar_order.issue_summary`, and that throw — like an oracle failure —
lands in the catch block, producing the degraded fallback result. -/
def check_similar_issues (llm : LLMJudge) (workOrders : List WorkOrder)
    (tenant_id new_issue_description : Option String) : SimilarResult :=
  let activeOrders := activeOrdersFor workOrders tenant_id
  if activeOrders.length = 0 then noActiveOrdersResult
  else
    let existingIssues := activeOrders.map toExistingIssue
    match llm new_issue_description existingIssues with
    | Except.error _ => similarFallback existingIssues activeOrders.length
    | Except.ok verdict =>
      let comparisonResult := compareIssuesWithLLM verdict existingIssues
      if comparisonResult.has_similar then
        match comparisonResult.similar_order with
        | none => similarFallback existingIssues activeOrders.length
        | some so =>
          { has_similar := true
            similar_order := some so
            reasoning := comparisonResult.reasoning
            message := "A similar issue was found: \"" ++ jsShow so.issue_summary ++
              "\" (Work Order: " ++ so.id ++
              "). Please ask the tenant to confirm if this is the same issue or a genuinely different one before creating a new work order." }
      else
        { has_similar := false
          active_orders_count := some activeOrders.length
          existing_issues := some (existingIssues.map toBrief)
          message := "No similar issues found among active work orders. Safe to create a new work order if needed." }

/-! ## Tool Dispatcher and Conversation Controller (part_002 chatHandler) -/

/-- The raw argument payload of a tool call as parsed from the reasoning
engine: every field the eight tools may read, each possibly absent. -/
structure ToolArgs where
  query : Option String := none
  trade : Option String := none
  tenant_id : Option String := none
  new_issue_description : Option String := none
  issue_summary : Option String := none
  contractor_id : Option String := none
  priority : Option String := none
  status : Option String := none
  status_filter : Option String := none
  work_order_id : Option String := none
  resolution_notes : Option String := none
  attachments : Option (List Attachment) := none
deriving DecidableEq

/-- A mutating tool result: the order echoed without its attachments (the
field is blanked to `[]` here), plus the attachment count, and for
creation the optional note. -/
structure OrderResult where
  order : WorkOrder
  attachments_count : Nat
  note : Option String := none
deriving DecidableEq

/-- A work order with its attachments stripped, as every LLM-facing result
echoes it. -/
def stripAttachments (wo : WorkOrder) : WorkOrder :=
  { wo with attachments := [] }

/-- The structured result of one dispatched tool call. -/
inductive ToolResult where
  | knowledge (articles : List ScoredArticle)
  | contractors (cs : List Contractor)
  | similar (r : SimilarResult)
  | created (r : OrderResult)
  | orders (l : List WorkOrderView)
  | updated (r : OrderResult)
  | completed (r : OrderResult)
  | deleted (r : OrderResult) (message : String)
  | err (msg : String)
deriving DecidableEq

/-- The per-turn environment of the dispatcher: the authenticated tenant,
the request attachments, the read-only stores, the duplicate-comparison
oracle, and the ambient id/timestamp. -/
structure Env where
  tenant : Tenant
  attachments : Option (List Attachment) := none
  knowledge : Option (List Article) := none
  contractorsDB : Option (List Contractor) := none
  llm : LLMJudge
  freshId : String := "wo-1"
  now : String := "now"

/-- The trusted-context injection of the controller, factored out of its
dispatch branches: for `check_similar_issues`, `create_work_order` and
`get_work_orders` the caller-supplied `tenant_id` is overridden with the
session tenant id (`...args, tenant_id: tenant.id`), and creation also
receives the request attachments (`attachments: attachments || []`). All
other tools receive their arguments unchanged. -/
def effectiveArgs (tenant : Tenant) (reqAttachments : Option (List Attachment))
    (name : String) (args : ToolArgs) : ToolArgs :=
  if name = "check_similar_issues" then
    { args with tenant_id := some tenant.id }
  else if name = "create_work_order" then
    { args with tenant_id := some tenant.id, attachments := some (reqAttachments.getD []) }
  else if name = "get_work_orders" then
    { args with tenant_id := some tenant.id }
  else args

/-- The dispatch chain of the controller after context injection: route the
tool name to its handler, convert every throw into a structured error
result, thread the work-order store. Unknown names produce
`{error: "Unknown tool"}`. -/
def dispatchRaw (env : Env) (workOrders : List WorkOrder) (name : String)
    (args : ToolArgs) : ToolResult × List WorkOrder :=
  if name = "search_knowledge_base" then
    match searchKnowledge env.knowledge args.query with
    | Except.ok l => (ToolResult.knowledge l, workOrders)
    | Except.error e => (ToolResult.err e, workOrders)
  else if name = "check_similar_issues" then
    (ToolResult.similar (check_similar_issues env.llm workOrders args.tenant_id
      args.new_issue_description), workOrders)
  else if name = "get_available_contractors" then
    (ToolResult.contractors (get_available_contractors env.contractorsDB args.trade),
      workOrders)
  else if name = "create_work_order" then
    match create_work_order env.freshId env.now (env.contractorsDB.getD []) workOrders
        args.tenant_id args.issue_summary args.contractor_id args.priority
        args.attachments with
    | Except.ok (ws, wo) =>
      (ToolResult.created
        { order := stripAttachments wo
          attachments_count := (args.attachments.map List.length).getD 0
          note := match args.attachments with
            | some l =>
              if 0 < l.length then
                some (toString l.length ++ " photo(s) attached and saved with work order")
              else none
            | none => none }, ws)
    | Except.error e => (ToolResult.err e, workOrders)
  else if name = "get_work_orders" then
    (ToolResult.orders (get_work_orders workOrders args.tenant_id args.status_filter),
      workOrders)
  else if name = "update_work_order" then
    match update_work_order env.now workOrders args.work_order_id args.issue_summary
        args.priority args.status with
    | Except.ok (ws, wo) =>
      (ToolResult.updated
        { order := stripAttachments wo, attachments_count := wo.attachments.length }, ws)
    | Except.error e => (ToolResult.err e, workOrders)
  else if name = "complete_work_order" then
    match complete_work_order env.now workOrders args.work_order_id
        args.resolution_notes with
    | Except.ok (ws, wo) =>
      (ToolResult.completed
        { order := stripAttachments wo, attachments_count := wo.attachments.length }, ws)
    | Except.error e => (ToolResult.err e, workOrders)
  else if name = "delete_work_order" then
    match delete_work_order workOrders args.work_order_id with
    | Except.ok (ws, wo) =>
      (ToolResult.deleted
        { order := stripAttachments wo, attachments_count := wo.attachments.length }
        ("Work order " ++ jsShow args.work_order_id ++ " has been deleted."), ws)
    | Except.error e => (ToolResult.err e, workOrders)
  else (ToolResult.err "Unknown tool", workOrders)

/-- One tool dispatch of the controller: context injection, then the
dispatch chain. -/
def dispatchTool (env : Env) (workOrders : List WorkOrder) (name : String)
    (args : ToolArgs) : ToolResult × List WorkOrder :=
  dispatchRaw env workOrders name (effectiveArgs env.tenant env.attachments name args)

/-- One tool call of a reasoning-engine response. -/
structure ToolCall where
  id : String
  name : String
  arguments : ToolArgs
deriving DecidableEq

/-- A reasoning-engine response: assistant text, and the tool-call batch
when present. JavaScript checks `!responseMessage.tool_calls`, so a present
empty batch (`some []`) still counts as tool calls. -/
structure EngineResponse where
  content : String := ""
  tool_calls : Option (List ToolCall) := none
deriving DecidableEq

/-- A conversation entry: the bound system/user/assistant text messages,
an assistant message carrying tool calls, or a serialized tool result. -/
inductive Msg where
  | text (role content : String)
  | assistant (resp : EngineResponse)
  | toolMsg (tool_call_id name : String) (content : ToolResult)
deriving DecidableEq

/-- The primary reasoning engine as an oracle over the conversation. -/
def Engine : Type := List Msg → EngineResponse

/-- The outcome of one chat turn: the final assistant message with the
accumulated tool trace, or a fatal turn failure. -/
inductive TurnResult where
  | success (message : EngineResponse) (toolCalls : List ToolCall)
      (toolResults : List (String × ToolResult))
  | failure (msg : String)
deriving DecidableEq

/-- Sequential execution of one tool-call batch: each call is dispatched
against the store the previous call left, and its result is appended to
the conversation and the result trace. -/
def execToolCalls (env : Env) :
    List ToolCall → List Msg → List (String × ToolResult) → List WorkOrder →
      List Msg × List (String × ToolResult) × List WorkOrder
  | [], conv, trs, ws => (conv, trs, ws)
  | tc :: rest, conv, trs, ws =>
    let out := dispatchTool env ws tc.name tc.arguments
    execToolCalls env rest (conv ++ [Msg.toolMsg tc.id tc.name out.1])
      (trs ++ [(tc.name, out.1)]) out.2

/-- The iteration cap of the agent loop (`MAX_LOOPS`). -/
def MAX_LOOPS : Nat := 5

/-- The agent loop, fuel-counted: each iteration makes one engine call; a
response without tool calls ends the turn successfully, otherwise the
batch is executed and the loop continues. Exhausted fuel is the
`loopCount < MAX_LOOPS` exit, answered with the 500 turn failure. The
second component counts the engine calls made. -/
def agentLoopAux (engine : Engine) (env : Env) :
    Nat → List Msg → List ToolCall → List (String × ToolResult) → List WorkOrder →
      TurnResult × Nat
  | 0, _, _, _, _ => (TurnResult.failure "Agent loop limit exceeded", 0)
  | fuel + 1, conv, tcs, trs, ws =>
    let responseMessage := engine conv
    match responseMessage.tool_calls with
    | none => (TurnResult.success responseMessage tcs trs, 1)
    | some calls =>
      let step := execToolCalls env calls (conv ++ [Msg.assistant responseMessage]) trs ws
      let rest := agentLoopAux engine env fuel step.1 (tcs ++ calls) step.2.1 step.2.2
      (rest.1, rest.2 + 1)

/-- The read-only per-process stores and oracles of a chat turn. -/
structure Stores where
  knowledge : Option (List Article) := none
  contractorsDB : Option (List Contractor) := none
  workOrders : List WorkOrder := []
  llm : LLMJudge
  freshId : String := "wo-1"
  now : String := "now"

/-- The body of a chat request. -/
structure ChatRequest where
  messages : List Msg
  tenantId : Option String := none
  attachments : Option (List Attachment) := none

/-- The history window: only the last `MAX_HISTORY_MESSAGES` messages are
forwarded to the engine. -/
def MAX_HISTORY_MESSAGES : Nat := 4

/-- The system prompt template of the controller, abbreviated to its
structure: the context placeholders appear exactly where the source
template binds them; the remaining guideline prose does not influence any
control flow. -/
def SYSTEM_PROMPT : String :=
  "You are a helpful Maintenance Support Agent for a property management company.\n" ++
  "CONTEXT:\nTenant ID: \x7b\x7bTENANT_ID\x7d\x7d\nTenant: \x7b\x7bTENANT_NAME\x7d\x7d\nUnit: \x7b\x7bTENANT_UNIT\x7d\x7d\n" ++
  "IMPORTANT TOOL USAGE RULES:\n- For tenant_id, use \"\x7b\x7bTENANT_ID\x7d\x7d\" from the context above.\n" ++
  "WORKFLOW FOR BOOKING A CONTRACTOR:\n1. FIRST: Call check_similar_issues with tenant_id: \"\x7b\x7bTENANT_ID\x7d\x7d\"\n" ++
  "4. THEN: Call create_work_order using tenant_id: \"\x7b\x7bTENANT_ID\x7d\x7d\"\n"

/-- The context injection into the system prompt: every placeholder is
substituted with the resolved tenant, and the attachment note is appended
when the request carries attachments. -/
def buildSystemPrompt (tenant : Tenant) (attachments : Option (List Attachment)) :
    String :=
  let p := ((SYSTEM_PROMPT.replace "\x7b\x7bTENANT_ID\x7d\x7d" tenant.id).replace
    "\x7b\x7bTENANT_NAME\x7d\x7d" tenant.name).replace "\x7b\x7bTENANT_UNIT\x7d\x7d" tenant.unit
  match attachments with
  | some l =>
    if 0 < l.length then
      p ++ "\n\nNOTE: The tenant has attached " ++ toString l.length ++
        " photo(s) of the issue. These photos will be automatically included in any work order you create. You do not need to mention this unless relevant to the conversation."
    else p
  | none => p

/-- The tenant-context load of the chat handler:
`tenants.find((t) => t.id === tenantId) || tenants[0]`; `none` models the
undefined `tenants[0]` of an empty store, on which the handler then throws. -/
def resolveTenant (tenants : List Tenant) (tenantId : Option String) :
    Option Tenant :=
  match tenants.find? (fun t => some t.id == tenantId) with
  | some t => some t
  | none => tenants.head?

/-- The chat turn once a tenant is bound: build the bound system prompt,
trim the history window (`messages.slice(-4)`), and run the agent loop on
the stores. -/
def runTurn (engine : Engine) (st : Stores) (tenant : Tenant) (req : ChatRequest) :
    TurnResult :=
  let env : Env :=
    { tenant := tenant
      attachments := req.attachments
      knowledge := st.knowledge
      contractorsDB := st.contractorsDB
      llm := st.llm
      freshId := st.freshId
      now := st.now }
  let systemPrompt := buildSystemPrompt tenant req.attachments
  let recentMessages :=
    if MAX_HISTORY_MESSAGES < req.messages.length then
      req.messages.drop (req.messages.length - MAX_HISTORY_MESSAGES)
    else req.messages
  (agentLoopAux engine env MAX_LOOPS
    (Msg.text "system" systemPrompt :: recentMessages) [] [] st.workOrders).1

/-- Models `chatHandler`: resolve the tenant (falling back to the first
tenant of the store), then run the turn; with an empty tenant store the
handler throws reading `tenant.id` and the outer catch answers with the
generic 500. -/
def chatHandler (engine : Engine) (st : Stores) (tenants : List Tenant)
    (req : ChatRequest) : TurnResult :=
  match resolveTenant tenants req.tenantId with
  | none => TurnResult.failure "Internal Server Error"
  | some tenant => runTurn engine st tenant req

/-! ## Reachability through the state machine -/

/-- The work-order collections reachable from the empty store through the
create, update and complete operations of the state machine. -/
inductive Reachable : List WorkOrder → Prop where
  | empty : Reachable []
  | create (freshId now : String) (contractors : List Contractor)
      (tenant_id issue_summary contractor_id priority : Option String)
      (attachments : Option (List Attachment)) (ws ws' : List WorkOrder)
      (wo : WorkOrder) :
      Reachable ws →
      create_work_order freshId now contractors ws tenant_id issue_summary
        contractor_id priority attachments = Except.ok (ws', wo) →
      Reachable ws'
  | update (now : String) (work_order_id issue_summary priority status : Option String)
      (ws ws' : List WorkOrder) (wo : WorkOrder) :
      Reachable ws →
      update_work_order now ws work_order_id issue_summary priority status =
        Except.ok (ws', wo) →
      Reachable ws'
  | complete (now : String) (work_order_id resolution_notes : Option String)
      (ws ws' : List WorkOrder) (wo : WorkOrder) :
      Reachable ws →
      complete_work_order now ws work_order_id resolution_notes =
        Except.ok (ws', wo) →
      Reachable ws'

/-! ## Operation lemmas -/

theorem applyComplete_fields (now : String) (rn : Option String) (wo : WorkOrder) :
    (applyComplete now rn wo).status = some "solved" ∧
    (applyComplete now rn wo).updated_at = some now ∧
    (applyComplete now rn wo).resolved_at = some now := by
  unfold applyComplete
  split <;> simp

theorem applyUpdateFields_frame (now : String) (isum pr st : Option String)
    (wo : WorkOrder) :
    (applyUpdateFields now isum pr st wo).id = wo.id ∧
    (applyUpdateFields now isum pr st wo).tenant_id = wo.tenant_id ∧
    (applyUpdateFields now isum pr st wo).tenantId = wo.tenantId ∧
    (applyUpdateFields now isum pr st wo).issueDescription = wo.issueDescription ∧
    (applyUpdateFields now isum pr st wo).contractor_id = wo.contractor_id ∧
    (applyUpdateFields now isum pr st wo).contractorId = wo.contractorId ∧
    (applyUpdateFields now isum pr st wo).contractor_name = wo.contractor_name ∧
    (applyUpdateFields now isum pr st wo).trade = wo.trade ∧
    (applyUpdateFields now isum pr st wo).created_at = wo.created_at ∧
    (applyUpdateFields now isum pr st wo).createdAt = wo.createdAt ∧
    (applyUpdateFields now isum pr st wo).resolved_at = wo.resolved_at ∧
    (applyUpdateFields now isum pr st wo).resolution_notes = wo.resolution_notes ∧
    (applyUpdateFields now isum pr st wo).attachments = wo.attachments ∧
    (applyUpdateFields now isum pr st wo).updated_at = some now ∧
    (isum = none → (applyUpdateFields now isum pr st wo).issue_summary = wo.issue_summary) ∧
    (∀ v, isum = some v → (applyUpdateFields now isum pr st wo).issue_summary = some v) ∧
    (pr = none → (applyUpdateFields now isum pr st wo).priority = wo.priority) ∧
    (∀ v, pr = some v → (applyUpdateFields now isum pr st wo).priority = some v) ∧
    (st = none → (applyUpdateFields now isum pr st wo).status = wo.status) ∧
    (∀ v, st = some v → (applyUpdateFields now isum pr st wo).status = some v) := by
  cases isum <;> cases pr <;> cases st <;> simp [applyUpdateFields]

theorem update_work_order_ok_iff {now : String} {ws : List WorkOrder}
    {woid isum pr st : Option String} {out : List WorkOrder × WorkOrder} :
    update_work_order now ws woid isum pr st = Except.ok out ↔
      updateFirst (fun w => some w.id = woid) (applyUpdateFields now isum pr st) ws =
        some out := by
  unfold update_work_order
  cases h : updateFirst (fun w => some w.id = woid)
      (applyUpdateFields now isum pr st) ws with
  | none => simp [h]
  | some o =>
    obtain ⟨a, b⟩ := o
    simp [h]

theorem complete_work_order_ok_iff {now : String} {ws : List WorkOrder}
    {woid rn : Option String} {out : List WorkOrder × WorkOrder} :
    complete_work_order now ws woid rn = Except.ok out ↔
      updateFirst (fun w => some w.id = woid) (applyComplete now rn) ws = some out := by
  unfold complete_work_order
  cases h : updateFirst (fun w => some w.id = woid) (applyComplete now rn) ws with
  | none => simp [h]
  | some o =>
    obtain ⟨a, b⟩ := o
    simp [h]

theorem create_ok_spec {freshId now : String} {contractors : List Contractor}
    {ws : List WorkOrder} {tid isum cid pr : Option String}
    {att : Option (List Attachment)} {ws' : List WorkOrder} {wo : WorkOrder}
    (h : create_work_order freshId now contractors ws tid isum cid pr att =
      Except.ok (ws', wo)) :
    ws' = ws ++ [wo] ∧ wo.resolved_at = none ∧ wo.updated_at = none ∧
      wo.status = some "assigned" := by
  simp only [create_work_order] at h
  split at h
  · simp only [Except.ok.injEq, Prod.mk.injEq] at h
    obtain ⟨h1, h2⟩ := h
    subst h2
    exact ⟨h1.symm, rfl, rfl, rfl⟩
  · split at h
    · exact absurd h (by simp)
    · exact absurd h (by simp)
    · split at h
      · simp only [Except.ok.injEq, Prod.mk.injEq] at h
        obtain ⟨h1, h2⟩ := h
        subst h2
        exact ⟨h1.symm, rfl, rfl, rfl⟩
      · split at h
        · simp only [Except.ok.injEq, Prod.mk.injEq] at h
          obtain ⟨h1, h2⟩ := h
          subst h2
          exact ⟨h1.symm, rfl, rfl, rfl⟩
        · exact absurd h (by simp)

/-! ## Concrete fixtures used by witnesses and counterexamples -/

/-- A sample contractor store with one plumber. -/
def sampleContractor : Contractor :=
  { id := "contractor-001", name := "Bob Pipes", service := some "plumbing" }

/-- The work order created for the sample tenant by `create_work_order`. -/
def sampleWo : WorkOrder :=
  newWorkOrder "wo-1" "t1" (some "tenant-001") (some "kitchen tap is dripping")
    (some "High") none sampleContractor

/-- The sample order after `complete_work_order`. -/
def sampleWoDone : WorkOrder := applyComplete "t2" none sampleWo

/-- The sample order after `update_work_order` set its status to
`completed`. -/
def sampleWoCompleted : WorkOrder := applyUpdateFields "t2" none none (some "completed") sampleWo

/-! ## C4: complete on an existing id, not-found otherwise -/

/-- C4: For every work-order collection and every id: if a record with that
id exists, complete_work_order sets its status to `solved` and populates
`resolved_at` (and `updated_at`); if no record with that id exists, it
reports a not-found error and the stored collection is unchanged. -/
theorem C4_complete_work_order (now : String) (ws : List WorkOrder) (woid : String)
    (rn : Option String) :
    ((∃ wo ∈ ws, wo.id = woid) →
      ∃ ws' wo', complete_work_order now ws (some woid) rn = Except.ok (ws', wo') ∧
        wo'.status = some "solved" ∧ wo'.resolved_at = some now ∧
        wo'.updated_at = some now ∧ wo' ∈ ws') ∧
    ((∀ wo ∈ ws, wo.id ≠ woid) →
      complete_work_order now ws (some woid) rn =
        Except.error ("Work order " ++ woid ++ " not found.") ∧
      completeRun now ws (some woid) rn = ws) := by
  constructor
  · intro ⟨wo, hmem, hid⟩
    have hex : ∃ x ∈ ws, (fun w => some w.id = some woid) x := ⟨wo, hmem, by simp [hid]⟩
    have hsome := updateFirst_isSome (f := applyComplete now rn) hex
    cases hu : updateFirst (fun w => some w.id = some woid) (applyComplete now rn) ws with
    | none => rw [hu] at hsome; simp at hsome
    | some out =>
      obtain ⟨ws', wo'⟩ := out
      refine ⟨ws', wo', complete_work_order_ok_iff.mpr hu, ?_⟩
      obtain ⟨pre, x, post, _, _, _, hy, hl'⟩ := updateFirst_eq_some hu
      obtain ⟨hst, hup, hres⟩ := applyComplete_fields now rn x
      subst hy
      exact ⟨hst, hres, hup, hl' ▸ List.mem_append.mpr (Or.inr (List.mem_cons_self _ _))⟩
  · intro hall
    have hnone : updateFirst (fun w => some w.id = some woid) (applyComplete now rn) ws =
        none :=
      updateFirst_eq_none.mpr (fun x hx => by simpa using hall x hx)
    have herr : complete_work_order now ws (some woid) rn =
        Except.error ("Work order " ++ woid ++ " not found.") := by
      unfold complete_work_order
      rw [hnone]
      rfl
    exact ⟨herr, by unfold completeRun; rw [herr]⟩

/-- C4 witness: completing the sample order on its own id yields the solved
record with both timestamps. -/
theorem C4_complete_work_order_witness :
    ∃ ws' wo', complete_work_order "t2" [sampleWo] (some "wo-1") none =
      Except.ok (ws', wo') ∧
      wo'.status = some "solved" ∧ wo'.resolved_at = some "t2" ∧
      wo'.updated_at = some "t2" ∧ wo' ∈ ws' :=
  (C4_complete_work_order "t2" [sampleWo] "wo-1" none).1
    ⟨sampleWo, by simp, by decide⟩

/-! ## C9: update touches only the provided fields of the one record -/

/-- C9: For every existing work order and every update_work_order call,
only the provided fields among issue_summary, priority and status change
and `updated_at` is stamped; all other stored fields of that record — in
particular its attachments list — are unchanged, and every other record in
the collection is unchanged. -/
theorem C9_update_work_order_frame (now : String) (ws : List WorkOrder)
    (woid : String) (isum pr st : Option String) (ws' : List WorkOrder)
    (wo' : WorkOrder)
    (h : update_work_order now ws (some woid) isum pr st = Except.ok (ws', wo')) :
    ∃ pre wo post, ws = pre ++ wo :: post ∧ ws' = pre ++ wo' :: post ∧
      wo.id = woid ∧
      wo'.id = wo.id ∧ wo'.tenant_id = wo.tenant_id ∧ wo'.tenantId = wo.tenantId ∧
      wo'.issueDescription = wo.issueDescription ∧
      wo'.contractor_id = wo.contractor_id ∧ wo'.contractorId = wo.contractorId ∧
      wo'.contractor_name = wo.contractor_name ∧ wo'.trade = wo.trade ∧
      wo'.created_at = wo.created_at ∧ wo'.createdAt = wo.createdAt ∧
      wo'.resolved_at = wo.resolved_at ∧
      wo'.resolution_notes = wo.resolution_notes ∧
      wo'.attachments = wo.attachments ∧
      wo'.updated_at = some now ∧
      (isum = none → wo'.issue_summary = wo.issue_summary) ∧
      (∀ v, isum = some v → wo'.issue_summary = some v) ∧
      (pr = none → wo'.priority = wo.priority) ∧
      (∀ v, pr = some v → wo'.priority = some v) ∧
      (st = none → wo'.status = wo.status) ∧
      (∀ v, st = some v → wo'.status = some v) := by
  have hu := update_work_order_ok_iff.mp h
  obtain ⟨pre, x, post, hws, _, hx, hy, hl'⟩ := updateFirst_eq_some hu
  refine ⟨pre, x, post, hws, by rw [hl', hy], by simpa using hx, ?_⟩
  subst hy
  exact applyUpdateFields_frame now isum pr st x

/-- C9 witness: updating only the status of the sample order leaves its
identity, attachments and resolution fields untouched and stamps
`updated_at`. -/
theorem C9_update_work_order_frame_witness :
    ∃ pre wo post, [sampleWo] = pre ++ wo :: post ∧
      [sampleWoCompleted] = pre ++ sampleWoCompleted :: post ∧
      wo.id = "wo-1" ∧
      sampleWoCompleted.id = wo.id ∧ sampleWoCompleted.tenant_id = wo.tenant_id ∧
      sampleWoCompleted.tenantId = wo.tenantId ∧
      sampleWoCompleted.issueDescription = wo.issueDescription ∧
      sampleWoCompleted.contractor_id = wo.contractor_id ∧
      sampleWoCompleted.contractorId = wo.contractorId ∧
      sampleWoCompleted.contractor_name = wo.contractor_name ∧
      sampleWoCompleted.trade = wo.trade ∧
      sampleWoCompleted.created_at = wo.created_at ∧
      sampleWoCompleted.createdAt = wo.createdAt ∧
      sampleWoCompleted.resolved_at = wo.resolved_at ∧
      sampleWoCompleted.resolution_notes = wo.resolution_notes ∧
      sampleWoCompleted.attachments = wo.attachments ∧
      sampleWoCompleted.updated_at = some "t2" ∧
      ((none : Option String) = none → sampleWoCompleted.issue_summary = wo.issue_summary) ∧
      (∀ v, (none : Option String) = some v → sampleWoCompleted.issue_summary = some v) ∧
      ((none : Option String) = none → sampleWoCompleted.priority = wo.priority) ∧
      (∀ v, (none : Option String) = some v → sampleWoCompleted.priority = some v) ∧
      ((some "completed" : Option String) = none → sampleWoCompleted.status = wo.status) ∧
      (∀ v, (some "completed" : Option String) = some v → sampleWoCompleted.status = some v) :=
  C9_update_work_order_frame "t2" [sampleWo] "wo-1" none none (some "completed")
    [sampleWoCompleted] sampleWoCompleted rfl

/-! ## C1: the resolved_at invariant over reachable collections -/

/-- C1 counterexample: the claim fails on the code. From the empty store,
create the sample order (status `assigned`), then call update_work_order
with status `completed`: the reachable record has status `completed` but
`resolved_at` is not set, because update_work_order stamps only
`updated_at` and never touches `resolved_at`. -/
theorem C1_status_resolved_at_counterexample :
    ¬ (∀ ws, Reachable ws → ∀ wo ∈ ws,
        ((wo.status = some "completed" ∨ wo.status = some "solved") →
          wo.updated_at ≠ none ∧ wo.resolved_at ≠ none) ∧
        (¬ (wo.status = some "completed" ∨ wo.status = some "solved") →
          wo.resolved_at = none)) := by
  intro h
  have h1 : create_work_order "wo-1" "t1" [sampleContractor] [] (some "tenant-001")
      (some "kitchen tap is dripping") (some "contractor-001") (some "High") none =
      Except.ok ([sampleWo], sampleWo) := rfl
  have hr1 : Reachable [sampleWo] :=
    Reachable.create _ _ _ _ _ _ _ _ _ _ _ Reachable.empty h1
  have h2 : update_work_order "t2" [sampleWo] (some "wo-1") none none (some "completed") =
      Except.ok ([sampleWoCompleted], sampleWoCompleted) := rfl
  have hr2 : Reachable [sampleWoCompleted] :=
    Reachable.update _ _ _ _ _ _ _ _ hr1 h2
  have hch := (h [sampleWoCompleted] hr2 sampleWoCompleted (by simp)).1
    (Or.inl (by decide))
  exact hch.2 (by decide)

/-- C1 (amended): over every collection reachable from the empty store
through create, update and complete, any record with `resolved_at` set
also has `updated_at` set; `resolved_at` is populated only by the complete
operation (create leaves both timestamps unset, update stamps only
`updated_at`), so a status of `completed`/`solved` reached through
update_work_order does not imply `resolved_at` is set. -/
theorem C1_resolved_at_implies_updated_at :
    ∀ ws, Reachable ws → ∀ wo ∈ ws, wo.resolved_at ≠ none → wo.updated_at ≠ none := by
  intro ws h
  induction h with
  | empty => simp
  | create _ _ _ _ _ _ _ _ _ _ _ _ heq ih =>
    intro wo hmem hres
    obtain ⟨hws', hresnone, _, _⟩ := create_ok_spec heq
    subst hws'
    rcases List.mem_append.mp hmem with hmem | hmem
    · exact ih wo hmem hres
    · rw [List.mem_singleton.mp hmem] at hres
      exact absurd hresnone hres
  | update now woid isum pr st ws0 ws0' wo0 _ heq ih =>
    intro wo hmem hres
    have hu := update_work_order_ok_iff.mp heq
    rcases updateFirst_mem hu wo hmem with hold | ⟨w, hw, hwo⟩
    · exact ih wo hold hres
    · subst hwo
      have hfr := (applyUpdateFields_frame now isum pr st w).2.2.2.2.2.2.2.2.2.2.2.2.2.1
      rw [hfr]
      simp
  | complete now woid rn ws0 ws0' wo0 _ heq ih =>
    intro wo hmem hres
    have hu := complete_work_order_ok_iff.mp heq
    rcases updateFirst_mem hu wo hmem with hold | ⟨w, hw, hwo⟩
    · exact ih wo hold hres
    · subst hwo
      rw [(applyComplete_fields now rn w).2.1]
      simp

/-- C1 witness: the completed sample order is reachable, has `resolved_at`
set, and the theorem yields that `updated_at` is set. -/
theorem C1_resolved_at_implies_updated_at_witness :
    sampleWoDone.updated_at ≠ none :=
  C1_resolved_at_implies_updated_at [sampleWoDone]
    (Reachable.complete "t2" (some "wo-1") none [sampleWo] [sampleWoDone] sampleWoDone
      (Reachable.create "wo-1" "t1" [sampleContractor] (some "tenant-001")
        (some "kitchen tap is dripping") (some "contractor-001") (some "High") none
        [] [sampleWo] sampleWo Reachable.empty rfl)
      rfl)
    sampleWoDone (by simp) (by decide)

/-! ## C3: contractor resolution at creation -/

/-- C3: For every create_work_order call, the contractor argument is
resolved by trying contractor id first, then case-insensitive exact name,
then case-insensitive substring of the name, in that priority order; if
any step resolves, the stored record carries that contractor's canonical
id and name, never the caller-supplied raw string; if none resolves the
operation fails and no record is stored. -/
theorem C3_contractor_resolution (freshId now : String)
    (contractors : List Contractor) (ws : List WorkOrder)
    (tid isum : Option String) (raw : String) (pr : Option String)
    (att : Option (List Attachment)) :
    (∀ c, findById contractors (some raw) = some c →
      create_work_order freshId now contractors ws tid isum (some raw) pr att =
        Except.ok (ws ++ [newWorkOrder freshId now tid isum pr att c],
          newWorkOrder freshId now tid isum pr att c) ∧
      (newWorkOrder freshId now tid isum pr att c).contractor_id = some c.id ∧
      (newWorkOrder freshId now tid isum pr att c).contractor_name = some c.name) ∧
    (findById contractors (some raw) = none →
      ∀ c, findByName contractors raw = some c →
      create_work_order freshId now contractors ws tid isum (some raw) pr att =
        Except.ok (ws ++ [newWorkOrder freshId now tid isum pr att c],
          newWorkOrder freshId now tid isum pr att c) ∧
      (newWorkOrder freshId now tid isum pr att c).contractor_id = some c.id ∧
      (newWorkOrder freshId now tid isum pr att c).contractor_name = some c.name) ∧
    (findById contractors (some raw) = none →
      findByName contractors raw = none →
      ∀ c, findBySubstring contractors raw = some c →
      create_work_order freshId now contractors ws tid isum (some raw) pr att =
        Except.ok (ws ++ [newWorkOrder freshId now tid isum pr att c],
          newWorkOrder freshId now tid isum pr att c) ∧
      (newWorkOrder freshId now tid isum pr att c).contractor_id = some c.id ∧
      (newWorkOrder freshId now tid isum pr att c).contractor_name = some c.name) ∧
    (findById contractors (some raw) = none →
      findByName contractors raw = none →
      findBySubstring contractors raw = none →
      create_work_order freshId now contractors ws tid isum (some raw) pr att =
        Except.error (contractorNotFoundMsg (some raw) contractors) ∧
      createRun freshId now contractors ws tid isum (some raw) pr att = ws) := by
  refine ⟨?_, ?_, ?_, ?_⟩
  · intro c h1
    refine ⟨?_, rfl, rfl⟩
    simp only [create_work_order, h1]
  · intro h1 c h2
    refine ⟨?_, rfl, rfl⟩
    cases contractors with
    | nil => simp [findByName] at h2
    | cons c0 cs => simp only [create_work_order, h1, h2]
  · intro h1 h2 c h3
    refine ⟨?_, rfl, rfl⟩
    cases contractors with
    | nil => simp [findBySubstring] at h3
    | cons c0 cs => simp only [create_work_order, h1, h2, h3]
  · intro h1 h2 h3
    cases contractors with
    | nil =>
      constructor
      · simp only [create_work_order, h1]
      · unfold createRun
        simp only [create_work_order, h1]
    | cons c0 cs =>
      have herr : create_work_order freshId now (c0 :: cs) ws tid isum (some raw) pr att =
          Except.error (contractorNotFoundMsg (some raw) (c0 :: cs)) := by
        simp only [create_work_order, h1, h2, h3]
      exact ⟨herr, by unfold createRun; rw [herr]⟩

/-- C3 witness: the raw string "bob pipes" matches no contractor id but is
the case-insensitive exact name of the sample contractor, so creation
resolves it, and the stored record carries the canonical
`contractor-001` / `Bob Pipes` pair, not the raw string. -/
theorem C3_contractor_resolution_witness :
    create_work_order "wo-1" "t1" [sampleContractor] [] (some "tenant-001")
        (some "kitchen tap is dripping") (some "bob pipes") (some "High") none =
      Except.ok ([newWorkOrder "wo-1" "t1" (some "tenant-001")
          (some "kitchen tap is dripping") (some "High") none sampleContractor],
        newWorkOrder "wo-1" "t1" (some "tenant-001")
          (some "kitchen tap is dripping") (some "High") none sampleContractor) ∧
      (newWorkOrder "wo-1" "t1" (some "tenant-001")
        (some "kitchen tap is dripping") (some "High") none
          sampleContractor).contractor_id = some "contractor-001" ∧
      (newWorkOrder "wo-1" "t1" (some "tenant-001")
        (some "kitchen tap is dripping") (some "High") none
          sampleContractor).contractor_name = some "Bob Pipes" :=
  (C3_contractor_resolution "wo-1" "t1" [sampleContractor] [] (some "tenant-001")
    (some "kitchen tap is dripping") "bob pipes" (some "High") none).2.1
    (by decide) sampleContractor (by decide)

/-! ## C7: knowledge search results -/

theorem insertionSort_filter_score (l : List ScoredArticle) (s : Nat) :
    (List.insertionSort scoreGE l).filter (fun a => a.score == s) =
      l.filter (fun a => a.score == s) := by
  have hpair : (l.filter (fun a => a.score == s)).Pairwise scoreGE := by
    apply List.pairwise_of_forall_mem_list
    intro x hx y hy
    have hx' := List.of_mem_filter (p := fun a : ScoredArticle => a.score == s) hx
    have hy' := List.of_mem_filter (p := fun a : ScoredArticle => a.score == s) hy
    simp only [beq_iff_eq] at hx' hy'
    unfold scoreGE
    rw [hx', hy']
  have hsub : (l.filter (fun a => a.score == s)).Sublist (List.insertionSort scoreGE l) :=
    List.sublist_insertionSort hpair (List.filter_sublist l)
  have h2 := hsub.filter (fun a => a.score == s)
  have hid : (l.filter (fun a => a.score == s)).filter (fun a => a.score == s) =
      l.filter (fun a => a.score == s) :=
    List.filter_eq_self.mpr
      (fun x hx => List.of_mem_filter (p := fun a : ScoredArticle => a.score == s) hx)
  rw [hid] at h2
  have hperm : ((List.insertionSort scoreGE l).filter (fun a => a.score == s)).Perm
      (l.filter (fun a => a.score == s)) :=
    (List.perm_insertionSort scoreGE l).filter _
  exact (h2.eq_of_length hperm.length_eq.symm).symm

/-- C7: For every free-text query and every article corpus, the knowledge
search returns at most 3 articles, every returned article has score
strictly greater than zero, the results are ordered by descending score,
and articles with equal scores keep their original corpus order (stated as:
for each score value, the returned articles of that score form an
order-preserving sublist of the scored corpus). -/
theorem C7_search_knowledge (kn : Option (List Article)) (q : String) :
    searchKnowledge kn (some q) = Except.ok (searchResults (kn.getD []) q) ∧
    (searchResults (kn.getD []) q).length ≤ 3 ∧
    (∀ a ∈ searchResults (kn.getD []) q, 0 < a.score) ∧
    List.Sorted scoreGE (searchResults (kn.getD []) q) ∧
    (∀ s : Nat, ((searchResults (kn.getD []) q).filter (fun a => a.score == s)).Sublist
      ((scoredCorpus (kn.getD []) q).filter (fun a => a.score == s))) := by
  refine ⟨?_, ?_, ?_, ?_, ?_⟩
  · cases kn <;> rfl
  · exact List.length_take_le 3 _
  · intro a ha
    have h1 : a ∈ List.insertionSort scoreGE
        ((scoredCorpus (kn.getD []) q).filter (fun r => decide (0 < r.score))) :=
      (List.take_sublist 3 _).subset ha
    have hmem : a ∈ (scoredCorpus (kn.getD []) q).filter (fun r => decide (0 < r.score)) :=
      (List.perm_insertionSort scoreGE _).subset h1
    simpa using List.of_mem_filter hmem
  · exact List.Pairwise.sublist (List.take_sublist 3 _)
      (List.sorted_insertionSort scoreGE _)
  · intro s
    have h1 : ((searchResults (kn.getD []) q).filter (fun a => a.score == s)).Sublist
        ((List.insertionSort scoreGE
          ((scoredCorpus (kn.getD []) q).filter (fun r => decide (0 < r.score)))).filter
          (fun a => a.score == s)) :=
      (List.take_sublist 3 _).filter _
    rw [insertionSort_filter_score] at h1
    exact h1.trans ((List.filter_sublist _).filter _)

/-- A sample knowledge article matching the query "tap". -/
def sampleArticle : Article :=
  { id := "kb-1", title := some "Fix a dripping tap"
    content := some "Turn off the valve", tags := some ["plumbing"] }

/-- C7 witness: on a concrete one-article corpus and the query "tap", the
returned article scores above zero (1 for the haystack hit plus 2 for the
title hit). -/
theorem C7_search_knowledge_witness :
    0 < (scoreArticle (jsSplitWhitespace (strToLower "tap")) sampleArticle).score :=
  (C7_search_knowledge (some [sampleArticle]) "tap").2.2.1 _ (by decide)

/-! ## C2 and C8: the duplicate detector -/

/-- An oracle whose verdict denies similarity yet carries an unresolvable
order id. -/
def llmWrongId : LLMJudge := fun _ _ =>
  Except.ok { is_similar := false, matching_order_id := some "wo-999", reasoning := "different" }

/-- An oracle whose verdict claims similarity with the empty-string order
id (falsy in JavaScript, so resolution is never attempted). -/
def llmEmptyId : LLMJudge := fun _ _ =>
  Except.ok { is_similar := true, matching_order_id := some "", reasoning := "same" }

/-- An oracle whose verdict claims similarity with a hallucinated order
id. -/
def llmHallucinated : LLMJudge := fun _ _ =>
  Except.ok { is_similar := true, matching_order_id := some "wo-999", reasoning := "same" }

/-- An oracle whose call fails. -/
def llmFails : LLMJudge := fun _ _ => Except.error ()

/-- C2 counterexample: as stated, the claim fails on the code. The active
set is the single sample order `wo-1`, so the id `wo-999` resolves to
nothing. First run: a verdict with `is_similar: false` that names the
unresolvable id `wo-999` — the result has `has_similar: false` but its
`error` field is NOT populated, because the code consults the id only
after `is_similar` is true. Second run: a verdict with `is_similar: true`
naming the unresolvable empty-string id — again no `error`, because the
empty string is falsy and the code never attempts resolution. -/
theorem C2_fail_open_counterexample :
    activeOrdersFor [sampleWo] (some "tenant-001") ≠ [] ∧
    (∀ o ∈ (activeOrdersFor [sampleWo] (some "tenant-001")).map toExistingIssue,
      o.id ≠ "wo-999") ∧
    (check_similar_issues llmWrongId [sampleWo] (some "tenant-001")
      (some "leak")).has_similar = false ∧
    (check_similar_issues llmWrongId [sampleWo] (some "tenant-001")
      (some "leak")).error = none ∧
    (∀ o ∈ (activeOrdersFor [sampleWo] (some "tenant-001")).map toExistingIssue,
      o.id ≠ "") ∧
    (check_similar_issues llmEmptyId [sampleWo] (some "tenant-001")
      (some "leak")).has_similar = false ∧
    (check_similar_issues llmEmptyId [sampleWo] (some "tenant-001")
      (some "leak")).error = none := by
  decide

/-- C2 (amended): for every duplicate check where the tenant has at least
one active work order, if the verdict claims similarity (`is_similar`
true) and names a nonempty matching_order_id that does not resolve to any
order in the active set (hallucinated id), or the call itself errors, then
check_similar_issues returns has_similar: false with the active set
included in the result and its `error` field populated. -/
theorem C2_fail_open (llm : LLMJudge) (ws : List WorkOrder)
    (tid desc : Option String)
    (hactive : activeOrdersFor ws tid ≠ [])
    (h : llm desc ((activeOrdersFor ws tid).map toExistingIssue) = Except.error () ∨
      ∃ v s, llm desc ((activeOrdersFor ws tid).map toExistingIssue) = Except.ok v ∧
        v.is_similar = true ∧ v.matching_order_id = some s ∧ s ≠ "" ∧
        ∀ o ∈ (activeOrdersFor ws tid).map toExistingIssue, o.id ≠ s) :
    check_similar_issues llm ws tid desc =
      similarFallback ((activeOrdersFor ws tid).map toExistingIssue)
        (activeOrdersFor ws tid).length ∧
    (check_similar_issues llm ws tid desc).has_similar = false ∧
    (check_similar_issues llm ws tid desc).error =
      some "Could not perform semantic comparison" ∧
    (check_similar_issues llm ws tid desc).existing_issues =
      some (((activeOrdersFor ws tid).map toExistingIssue).map toBrief) := by
  have hlen : ¬ (activeOrdersFor ws tid).length = 0 := by
    simpa [List.length_eq_zero] using hactive
  have h0 : check_similar_issues llm ws tid desc =
      similarFallback ((activeOrdersFor ws tid).map toExistingIssue)
        (activeOrdersFor ws tid).length := by
    simp only [check_similar_issues]
    rw [if_neg hlen]
    rcases h with h | ⟨v, s, hok, hsim, hmid, hs, hnores⟩
    · rw [h]
    · rw [hok]
      dsimp only
      have hfind : ((activeOrdersFor ws tid).map toExistingIssue).find?
          (fun o => some o.id == v.matching_order_id) = none := by
        apply List.find?_eq_none.mpr
        intro o ho
        rw [hmid]
        simpa using hnores o ho
      have hcmp : compareIssuesWithLLM v ((activeOrdersFor ws tid).map toExistingIssue) =
          { has_similar := true, similar_order := none, reasoning := some v.reasoning } := by
        unfold compareIssuesWithLLM
        rw [if_pos]
        · rw [hfind]
        · rw [hsim, hmid]
          simp [jsTruthy, hs]
      rw [hcmp]
      rfl
  exact ⟨h0, by rw [h0]; rfl, by rw [h0]; rfl, by rw [h0]; rfl⟩

/-- C2 witness: with the sample active order and a failing comparison
call, the result is the degraded fallback: has_similar false, the error
field populated, the active set surfaced. -/
theorem C2_fail_open_witness :
    check_similar_issues llmFails [sampleWo] (some "tenant-001") (some "x") =
      similarFallback ((activeOrdersFor [sampleWo] (some "tenant-001")).map toExistingIssue)
        (activeOrdersFor [sampleWo] (some "tenant-001")).length ∧
    (check_similar_issues llmFails [sampleWo] (some "tenant-001") (some "x")).has_similar =
      false ∧
    (check_similar_issues llmFails [sampleWo] (some "tenant-001") (some "x")).error =
      some "Could not perform semantic comparison" ∧
    (check_similar_issues llmFails [sampleWo] (some "tenant-001") (some "x")).existing_issues =
      some (((activeOrdersFor [sampleWo] (some "tenant-001")).map toExistingIssue).map
        toBrief) :=
  C2_fail_open llmFails [sampleWo] (some "tenant-001") (some "x") (by decide) (Or.inl rfl)

/-- C8: For every tenant with zero work orders whose status is in
assigned / pending / in_progress, a duplicate check returns has_similar:
false immediately without invoking the secondary reasoning call — the
result is a constant independent of the oracle. -/
theorem C8_fast_path (llm : LLMJudge) (ws : List WorkOrder) (tid desc : Option String)
    (h : activeOrdersFor ws tid = []) :
    check_similar_issues llm ws tid desc = noActiveOrdersResult ∧
    ∀ llm', check_similar_issues llm ws tid desc =
      check_similar_issues llm' ws tid desc := by
  have key : ∀ l : LLMJudge, check_similar_issues l ws tid desc = noActiveOrdersResult := by
    intro l
    unfold check_similar_issues
    rw [h]
    rfl
  exact ⟨key llm, fun llm' => (key llm).trans (key llm').symm⟩

/-- C8 witness: an order of another tenant is not active for this tenant,
so the fast path answers and even an oracle that would claim similarity is
never consulted. -/
theorem C8_fast_path_witness :
    check_similar_issues llmHallucinated [sampleWo] (some "tenant-777") (some "x") =
      noActiveOrdersResult ∧
    ∀ llm', check_similar_issues llmHallucinated [sampleWo] (some "tenant-777") (some "x") =
      check_similar_issues llm' [sampleWo] (some "tenant-777") (some "x") :=
  C8_fast_path llmHallucinated [sampleWo] (some "tenant-777") (some "x") (by decide)

/-! ## C5: the tenant_id override before dispatch -/

/-- C5: For every tool call carrying a tenant_id argument
(check_similar_issues, create_work_order, get_work_orders), the controller
replaces the caller-supplied tenant_id with the session tenant id before
dispatch, so the dispatched result is independent of whatever tenant_id
the reasoning engine supplied: two runs differing only in that argument
dispatch identically. -/
theorem C5_tenant_id_override (env : Env) (ws : List WorkOrder) (name : String)
    (args args' : ToolArgs)
    (hname : name = "check_similar_issues" ∨ name = "create_work_order" ∨
      name = "get_work_orders")
    (hsame : { args with tenant_id := none } = { args' with tenant_id := none }) :
    (effectiveArgs env.tenant env.attachments name args).tenant_id =
      some env.tenant.id ∧
    dispatchTool env ws name args = dispatchTool env ws name args' := by
  obtain ⟨q, t, ti, n, i, c, p, s, sf, w, r, a⟩ := args
  obtain ⟨q', t', ti', n', i', c', p', s', sf', w', r', a'⟩ := args'
  simp only [ToolArgs.mk.injEq, and_true, true_and] at hsame
  obtain ⟨hq, ht, hn, hi, hc, hp, hs, hsf, hw, hr, ha⟩ := hsame
  subst hq ht hn hi hc hp hs hsf hw hr ha
  rcases hname with h | h | h <;> subst h <;>
    exact ⟨by simp [effectiveArgs], by simp [dispatchTool, effectiveArgs]⟩

/-- A sample dispatch environment bound to the authenticated sample
tenant. -/
def sampleEnv : Env :=
  { tenant := { id := "tenant-001", name := "Alice", unit := "1A" }, llm := llmFails }

/-- C5 witness: two get_work_orders calls whose arguments differ only in
the engine-supplied tenant_id dispatch identically, both overridden with
the session tenant id. -/
theorem C5_tenant_id_override_witness :
    (effectiveArgs sampleEnv.tenant sampleEnv.attachments "get_work_orders"
      { tenant_id := some "tenant-999" }).tenant_id = some sampleEnv.tenant.id ∧
    dispatchTool sampleEnv [] "get_work_orders" { tenant_id := some "tenant-999" } =
      dispatchTool sampleEnv [] "get_work_orders" { tenant_id := some "tenant-666" } :=
  C5_tenant_id_override sampleEnv [] "get_work_orders"
    { tenant_id := some "tenant-999" } { tenant_id := some "tenant-666" }
    (Or.inr (Or.inr rfl)) rfl

/-! ## C6: the iteration cap of the agent loop -/

theorem agentLoopAux_count_le (engine : Engine) (env : Env) :
    ∀ fuel conv tcs trs ws, (agentLoopAux engine env fuel conv tcs trs ws).2 ≤ fuel := by
  intro fuel
  induction fuel with
  | zero => intro conv tcs trs ws; simp [agentLoopAux]
  | succ n ih =>
    intro conv tcs trs ws
    simp only [agentLoopAux]
    cases hc : (engine conv).tool_calls with
    | none => simp
    | some calls =>
      simpa using Nat.succ_le_succ (ih _ _ _ _)

theorem agentLoopAux_all_tool_calls (engine : Engine) (env : Env)
    (h : ∀ conv, (engine conv).tool_calls ≠ none) :
    ∀ fuel conv tcs trs ws, agentLoopAux engine env fuel conv tcs trs ws =
      (TurnResult.failure "Agent loop limit exceeded", fuel) := by
  intro fuel
  induction fuel with
  | zero => intro conv tcs trs ws; rfl
  | succ n ih =>
    intro conv tcs trs ws
    cases hc : (engine conv).tool_calls with
    | none => exact absurd hc (h conv)
    | some calls =>
      simp only [agentLoopAux, hc]
      rw [ih]

/-- C6: For every controller turn in which every reasoning-engine response
contains tool calls, the loop executes at most the fixed iteration cap (5)
of engine calls, and when every response has tool calls it makes exactly
the cap many calls and terminates with the fatal turn error
"Agent loop limit exceeded" rather than looping forever or returning a
partial answer. -/
theorem C6_loop_cap (engine : Engine) (env : Env) (conv : List Msg)
    (tcs : List ToolCall) (trs : List (String × ToolResult)) (ws : List WorkOrder) :
    (agentLoopAux engine env MAX_LOOPS conv tcs trs ws).2 ≤ MAX_LOOPS ∧
    ((∀ c, (engine c).tool_calls ≠ none) →
      agentLoopAux engine env MAX_LOOPS conv tcs trs ws =
        (TurnResult.failure "Agent loop limit exceeded", MAX_LOOPS)) ∧
    ((∀ c, (engine c).tool_calls ≠ none) →
      ∀ st tenant req, runTurn engine st tenant req =
        TurnResult.failure "Agent loop limit exceeded") := by
  refine ⟨agentLoopAux_count_le engine env MAX_LOOPS conv tcs trs ws,
    fun h => agentLoopAux_all_tool_calls engine env h MAX_LOOPS conv tcs trs ws,
    fun h st tenant req => ?_⟩
  simp only [runTurn]
  rw [agentLoopAux_all_tool_calls engine _ h MAX_LOOPS _ _ _ _]

/-- An engine that answers every conversation with a (possibly empty)
tool-call batch. -/
def engineAllToolCalls : Engine := fun _ => { content := "", tool_calls := some [] }

/-- C6 witness: under the always-tool-calling engine the loop makes
exactly MAX_LOOPS calls and fails the turn. -/
theorem C6_loop_cap_witness :
    agentLoopAux engineAllToolCalls sampleEnv MAX_LOOPS [] [] [] [] =
      (TurnResult.failure "Agent loop limit exceeded", MAX_LOOPS) :=
  (C6_loop_cap engineAllToolCalls sampleEnv [] [] [] []).2.1
    (fun c => by simp [engineAllToolCalls])

/-! ## C10: unknown tenant falls back to the first tenant -/

/-- C10: For every chat request whose tenantId matches no tenant in the
store (and a nonempty tenant store), the turn does not fail on resolution:
the controller silently substitutes the first tenant of the store, and the
whole turn — context injection and tenant-id overriding included — runs
with that first tenant bound. -/
theorem C10_unknown_tenant_first_fallback (engine : Engine) (st : Stores)
    (tenants : List Tenant) (req : ChatRequest) (t0 : Tenant) (rest : List Tenant)
    (hts : tenants = t0 :: rest)
    (hnomatch : ∀ t ∈ tenants, some t.id ≠ req.tenantId) :
    resolveTenant tenants req.tenantId = some t0 ∧
    chatHandler engine st tenants req = runTurn engine st t0 req := by
  have hres : resolveTenant tenants req.tenantId = some t0 := by
    unfold resolveTenant
    have hfind : tenants.find? (fun t => some t.id == req.tenantId) = none :=
      List.find?_eq_none.mpr (fun t ht => by simpa using hnomatch t ht)
    rw [hfind, hts]
    rfl
  exact ⟨hres, by unfold chatHandler; rw [hres]⟩

/-- A one-tenant store. -/
def sampleTenants : List Tenant := [{ id := "tenant-001", name := "Alice", unit := "1A" }]

/-- The process stores with the failing comparison oracle. -/
def sampleStores : Stores := { llm := llmFails }

/-- An engine that answers at once without tool calls. -/
def engineNoTools : Engine := fun _ => { content := "Hello", tool_calls := none }

/-- A request naming a tenant id absent from the store. -/
def sampleReq : ChatRequest := { messages := [], tenantId := some "tenant-999" }

/-- C10 witness: the unknown tenant id resolves to the first (only) tenant
and the turn runs as that tenant. -/
theorem C10_unknown_tenant_first_fallback_witness :
    resolveTenant sampleTenants sampleReq.tenantId =
      some { id := "tenant-001", name := "Alice", unit := "1A" } ∧
    chatHandler engineNoTools sampleStores sampleTenants sampleReq =
      runTurn engineNoTools sampleStores
        { id := "tenant-001", name := "Alice", unit := "1A" } sampleReq :=
  C10_unknown_tenant_first_fallback engineNoTools sampleStores sampleTenants sampleReq
    { id := "tenant-001", name := "Alice", unit := "1A" } [] rfl (by decide)
